import Mathlib

/-!
Verification of the FitPlanner repository against its specification.

The repository ships the React frontend (`frontend/src/pages/Chat.jsx` and
friends); the FastAPI backend (agent controller, memory manager, tool
registry, external service gateway) is described by the specification and
the README but its code is not part of the repository snapshot.  The
frontend behaviour below is embedded directly from `Chat.jsx`; the backend
components are modelled from the specification, as marked on each
definition.
-/

namespace FitPlanner

/-! ## Frontend embedding: `frontend/src/pages/Chat.jsx` -/

/-- A single apostrophe character, used to build the user-facing strings of
`Chat.jsx` that contain one. -/
def apos : String := String.singleton (Char.ofNat 39)

/-- From `Chat.jsx` (catch branch of `sendMessageToAPI`): the fixed text
returned whenever the fetch, the token lookup, the HTTP status check or the
JSON decoding fails. -/
def connectFailureMessage : String :=
  "Sorry, I" ++ apos ++ "m having trouble connecting right now. Please try again later."

/-- From `Chat.jsx` (last operand of the answer-extraction chain): the fixed
text used when the decoded response has no truthy answer field. -/
def processFailureMessage : String :=
  "Sorry, I couldn" ++ apos ++ "t process that request."

/-- From `Chat.jsx` (catch branch of `handleSendMessage`): the fixed text of
the bot message appended when the awaited API call throws. -/
def catchFailureMessage : String := "Sorry, something went wrong. Please try again."

/-- The JSON body of the chat request, from
`JSON.stringify({ message: message, timestamp: new Date().toISOString() })`
in `sendMessageToAPI`. -/
structure ChatRequestBody where
  message : String
  timestamp : String
deriving DecidableEq, Repr

/-- The outbound chat request of `sendMessageToAPI`: the JSON body together
with the `Authorization` header value. -/
structure ChatRequest where
  authorization : String
  body : ChatRequestBody
deriving DecidableEq, Repr

/-- Builds the request exactly as `sendMessageToAPI` does: the Clerk token
travels in a bearer `Authorization` header and the body carries the message
and an ISO timestamp. -/
def buildChatRequest (token message timestamp : String) : ChatRequest :=
  { authorization := "Bearer " ++ token
  , body := { message := message, timestamp := timestamp } }

/-- The field names of the JSON body sent by `sendMessageToAPI`, in source
order. -/
def chatRequestBodyFields : List String := ["message", "timestamp"]

/-- The decoded JSON of a backend response, keeping the three fields
`sendMessageToAPI` inspects.  `none` models an absent field. -/
structure AgentResponseData where
  final_answer : Option String
  response : Option String
  message : Option String
deriving DecidableEq, Repr

/-- JavaScript truthiness of an optional string field: absent (`undefined`)
and the empty string are falsy, every other string is truthy. -/
def jsTruthy : Option String → Bool
  | none => false
  | some s => s != ""

/-- The answer-extraction chain
`data.final_answer || data.response || data.message || "Sorry, ..."`
of `sendMessageToAPI`, with JavaScript `||` semantics on the fields. -/
def extractAnswer (d : AgentResponseData) : String :=
  if jsTruthy d.final_answer then d.final_answer.getD ""
  else if jsTruthy d.response then d.response.getD ""
  else if jsTruthy d.message then d.message.getD ""
  else processFailureMessage

/-- Outcome of the `fetch` performed by `sendMessageToAPI`:
no Clerk token, a rejected fetch or failed JSON decode, a non-OK HTTP
status, or a decoded response body. -/
inductive FetchOutcome where
  | noToken : FetchOutcome
  | networkError : FetchOutcome
  | httpError (status : Nat) : FetchOutcome
  | success (data : AgentResponseData) : FetchOutcome
deriving DecidableEq, Repr

/-- `sendMessageToAPI` from `Chat.jsx`: every thrown error is caught and
replaced by the fixed connection-failure text; a decoded response goes
through the answer-extraction chain. -/
def sendMessageToAPI : FetchOutcome → String
  | .noToken => connectFailureMessage
  | .networkError => connectFailureMessage
  | .httpError _ => connectFailureMessage
  | .success d => extractAnswer d

/-- Does the call count as a failure of the backend call: any thrown error,
or a response lacking every expected answer field. -/
def isFailedCall : FetchOutcome → Bool
  | .noToken => true
  | .networkError => true
  | .httpError _ => true
  | .success d => !(jsTruthy d.final_answer || jsTruthy d.response || jsTruthy d.message)

/-- One entry of the `messages` state of the `Chat` component. -/
structure ChatMessage where
  id : Nat
  text : String
  sender : String
  timestamp : String
deriving DecidableEq, Repr

/-- The pieces of component state read and written by `handleSendMessage`. -/
structure ChatState where
  messages : List ChatMessage
  inputMessage : String
  isLoading : Bool
deriving DecidableEq, Repr

/-- JavaScript `String.prototype.trim`: the string with leading and
trailing whitespace removed. -/
def jsTrim (s : String) : String :=
  String.mk (((s.data.dropWhile Char.isWhitespace).reverse.dropWhile Char.isWhitespace).reverse)

/-- The user message object built by `handleSendMessage` (id `Date.now()`,
text the current input, sender `"user"`). -/
def userMessageOf (s : ChatState) (nowId : Nat) (nowTime : String) : ChatMessage :=
  { id := nowId, text := s.inputMessage, sender := "user", timestamp := nowTime }

/-- The bot message object appended by `handleSendMessage`: the resolved API
text on the normal path (id `Date.now() + 1`), the fixed catch text when the
awaited call throws. -/
def botMessageOf (apiThrew : Bool) (o : FetchOutcome) (nowId : Nat) (nowTime : String) :
    ChatMessage :=
  { id := nowId + 1
  , text := if apiThrew then catchFailureMessage else sendMessageToAPI o
  , sender := "bot"
  , timestamp := nowTime }

/-- `handleSendMessage` from `Chat.jsx`, observed from form submission to
completion of the async handler.  Returns the resulting state and whether an
API request was issued.  The first guard returns when the trimmed input is
empty or a request is in flight; the second returns (after an alert) when
the user is not signed in.  Past the guards the user message is appended,
the input cleared, the API awaited, one bot message appended, and the
loading flag is reset by the `finally` block. -/
def handleSendMessage (s : ChatState) (isSignedIn apiThrew : Bool) (o : FetchOutcome)
    (nowId : Nat) (nowTime : String) : ChatState × Bool :=
  if jsTrim s.inputMessage = "" || s.isLoading then (s, false)
  else if !isSignedIn then (s, false)
  else
    ({ messages := s.messages ++ [userMessageOf s nowId nowTime, botMessageOf apiThrew o nowId nowTime]
     , inputMessage := ""
     , isLoading := false }, true)

/-! ## Memory manager, modelled from the spec (backend code absent from the
repository snapshot; README: Redis short-term tier, Qdrant long-term tier,
scoped per hashed user id). -/

/-- Modelled from the spec: a `ConversationTurn`
(turn id, user hash, role, text, creation time); the backend Memory Manager
source is not in the repository. -/
structure ConversationTurn where
  turn_id : Nat
  user_hash : Nat
  role : String
  text : String
  created_at : Nat
deriving DecidableEq, Repr

/-- Modelled from the spec: a `ShortTermRecord` is a conversation turn plus
an expiry instant. -/
structure ShortTermRecord where
  turn_id : Nat
  user_hash : Nat
  role : String
  text : String
  created_at : Nat
  expires_at : Nat
deriving DecidableEq, Repr

/-- Modelled from the spec: a `LongTermRecord` with an embedding vector,
never mutated after insertion. -/
structure LongTermRecord where
  record_id : Nat
  user_hash : Nat
  text : String
  embedding : List Int
  created_at : Nat
deriving DecidableEq, Repr

/-- Modelled from the spec: the two memory tiers. -/
structure MemoryStore where
  shortTerm : List ShortTermRecord
  longTerm : List LongTermRecord
deriving DecidableEq, Repr

/-- Modelled from the spec: the configuration options of the Memory Manager
(top-k, minimum similarity threshold, short-term TTL). -/
structure MemoryConfig where
  k : Nat
  minSimilarity : Int
  shortTtl : Nat
deriving DecidableEq, Repr

/-- Modelled from the spec: embedding similarity, taken as the dot product
of the two vectors; the actual embedding space is external to the core. -/
def similarity (a b : List Int) : Int := (List.zipWith (fun x y => x * y) a b).sum

/-- Modelled from the spec: the external text-embedding function, modelled
as a deterministic text-to-vector map. -/
def embed (text : String) : List Int := [(text.length : Int)]

/-- Short-term recency order: more recent records first. -/
def moreRecent (a b : ShortTermRecord) : Prop := b.created_at ≤ a.created_at

instance : DecidableRel moreRecent := fun a b =>
  decidable_of_iff (b.created_at ≤ a.created_at) Iff.rfl

/-- Long-term retrieval priority for a query embedding `m`: higher
similarity first, ties broken by recency descending. -/
def ltPriority (m : List Int) (a b : LongTermRecord) : Prop :=
  similarity m b.embedding < similarity m a.embedding ∨
    (similarity m a.embedding = similarity m b.embedding ∧ b.created_at ≤ a.created_at)

instance (m : List Int) : DecidableRel (ltPriority m) := fun a b =>
  decidable_of_iff (similarity m b.embedding < similarity m a.embedding ∨
    (similarity m a.embedding = similarity m b.embedding ∧ b.created_at ≤ a.created_at)) Iff.rfl

/-- Does a short-term record belong to the requesting user and remain
unexpired at `now`. -/
def shortKeep (u now : Nat) (r : ShortTermRecord) : Bool :=
  decide (r.user_hash = u ∧ now < r.expires_at)

/-- Does a long-term record belong to the requesting user with similarity to
the query strictly above the configured minimum. -/
def longKeep (cfg : MemoryConfig) (u : Nat) (m : List Int) (r : LongTermRecord) : Bool :=
  decide (r.user_hash = u ∧ cfg.minSimilarity < similarity m r.embedding)

/-- Modelled from the spec: the short-term read path of `assemble_context` —
all non-expired short-term records of the user, recency descending. -/
def retrieveShortTerm (store : MemoryStore) (u now : Nat) : List ShortTermRecord :=
  List.insertionSort moreRecent (store.shortTerm.filter (shortKeep u now))

/-- Modelled from the spec: the long-term read path of `assemble_context` —
the top-k records of the user above the similarity threshold, similarity
descending, ties by recency descending. -/
def retrieveLongTerm (cfg : MemoryConfig) (store : MemoryStore) (u : Nat) (m : List Int) :
    List LongTermRecord :=
  (List.insertionSort (ltPriority m) (store.longTerm.filter (longKeep cfg u m))).take cfg.k

/-- The ordered entries returned by `assemble_context`: the short-term part
followed by the retrieved long-term part. -/
structure AssembledContext where
  shortTerm : List ShortTermRecord
  longTerm : List LongTermRecord
deriving DecidableEq, Repr

/-- Modelled from the spec: `assemble_context(user_hash, message)` — merges
the non-expired short-term records and the retrieved long-term records of
that user; the backend Memory Manager source is not in the repository. -/
def assemble_context (cfg : MemoryConfig) (store : MemoryStore) (u : Nat) (message : String)
    (now : Nat) : AssembledContext :=
  { shortTerm := retrieveShortTerm store u now
  , longTerm := retrieveLongTerm cfg store u (embed message) }

/-- The short-term record written by `persist_turn`: the turn stamped with
the requesting user and an expiry `now + TTL`. -/
def shortRecordOf (cfg : MemoryConfig) (u : Nat) (turn : ConversationTurn) (now : Nat) :
    ShortTermRecord :=
  { turn_id := turn.turn_id, user_hash := u, role := turn.role, text := turn.text
  , created_at := turn.created_at, expires_at := now + cfg.shortTtl }

/-- The long-term record written by `persist_turn`: the embedded turn text
stamped with the requesting user. -/
def longRecordOf (u : Nat) (turn : ConversationTurn) (now : Nat) : LongTermRecord :=
  { record_id := turn.turn_id, user_hash := u, text := turn.text
  , embedding := embed turn.text, created_at := now }

/-- Modelled from the spec: `persist_turn(user_hash, turn)` — writes a
short-term record with a TTL and a long-term record with an embedding, both
scoped to the requesting user; the backend source is not in the
repository. -/
def persist_turn (cfg : MemoryConfig) (store : MemoryStore) (u : Nat) (turn : ConversationTurn)
    (now : Nat) : MemoryStore :=
  { shortTerm := store.shortTerm ++ [shortRecordOf cfg u turn now]
  , longTerm := store.longTerm ++ [longRecordOf u turn now] }

/-! ## Agent controller loop, modelled from the spec. -/

/-- Modelled from the spec: one model round-trip answer — either a direct
final answer or a batch of requested tool calls. -/
inductive ModelStep where
  | direct (text : String) : ModelStep
  | toolCalls (calls : List String) : ModelStep
deriving DecidableEq, Repr

/-- Modelled from the spec: the outcome of one turn of the Agent Controller
— a final answer, or loop exhaustion carrying the degraded user-facing
text. -/
inductive TurnOutcome where
  | answer (text : String) : TurnOutcome
  | loopExceeded (userMessage : String) : TurnOutcome
deriving DecidableEq, Repr

/-- Modelled from the spec: the generic apology shown to the user when the
round limit is exceeded. -/
def apologyMessage : String := "Sorry, something went wrong while handling your request."

/-- Modelled from the spec: the tool-call loop of the Agent Controller with
the remaining round budget as fuel.  Each round consults the model; a direct
answer finalizes the turn, a tool-call request consumes one round; an
exhausted budget fails the turn with the degraded apology. -/
def agentLoopAux (model : Nat → ModelStep) (round fuel : Nat) : TurnOutcome :=
  match fuel with
  | 0 => .loopExceeded apologyMessage
  | fuel + 1 =>
    match model round with
    | .direct t => .answer t
    | .toolCalls _ => agentLoopAux model (round + 1) fuel

/-- Modelled from the spec: the per-turn loop of `handle_turn`, bounded by
the fixed maximum number of rounds; the backend source is not in the
repository. -/
def handle_turn_loop (model : Nat → ModelStep) (maxRounds : Nat) : TurnOutcome :=
  agentLoopAux model 0 maxRounds

/-- The raw token carried by the bearer `Authorization` header built by the
frontend: the header value with the seven characters of the scheme tag
removed. -/
def bearerToken (authorization : String) : String :=
  String.mk (authorization.data.drop 7)

/-- Modelled from the spec: the one-way derivation of `user_hash` from the
raw identity token, performed once at the boundary; deterministic, and the
raw identifier is not retained.  The backend boundary source is not in the
repository. -/
def resolveIdentityToken (token : String) : Nat := (token.data.map Char.toNat).sum

/-- Modelled from the spec: the response envelope returned to the caller —
a final answer, or an error envelope. -/
inductive BoundaryResponse where
  | answer (final_answer : String) : BoundaryResponse
  | errorEnvelope (message : String) : BoundaryResponse
deriving DecidableEq, Repr

/-- Modelled from the spec: the Agent Controller boundary — resolves the
identity token of the inbound request to a `user_hash` once, runs the turn,
and returns a final answer or an error envelope to the caller.  The backend
boundary source is not in the repository. -/
def handleInbound (model : Nat → ModelStep) (maxRounds : Nat) (req : ChatRequest) :
    Nat × BoundaryResponse :=
  let u := resolveIdentityToken (bearerToken req.authorization)
  match handle_turn_loop model maxRounds with
  | .answer t => (u, .answer t)
  | .loopExceeded msg => (u, .errorEnvelope msg)

/-! ## External service gateway circuit breaker, modelled from the spec. -/

/-- Modelled from the spec: the per-provider breaker state — closed with a
count of consecutive failures, or open since some instant. -/
inductive CBState where
  | closed (consecFails : Nat) : CBState
  | opened (since : Nat) : CBState
deriving DecidableEq, Repr

/-- Modelled from the spec: the visible outcome of one gateway call. -/
inductive GatewayOutcome where
  | ok (resp : String) : GatewayOutcome
  | serviceError : GatewayOutcome
  | circuitOpen : GatewayOutcome
deriving DecidableEq, Repr

/-- Result of one gateway call: the next breaker state, the outcome, and
whether the provider was actually contacted. -/
structure GatewayResult where
  state : CBState
  outcome : GatewayOutcome
  contacted : Bool
deriving DecidableEq, Repr

/-- Modelled from the spec: one call through the External Service Gateway.
`provider` is the provider behaviour for this call (`some resp` succeeds,
`none` fails).  Closed: the provider is contacted; a success resets the
failure count, a failure increments it and opens the circuit at the
threshold.  Open: before the cool-down elapses the call short-circuits with
`CircuitOpenError` without contacting the provider; afterwards a half-open
probe contacts the provider, closing the circuit on success and re-opening
it on failure.  The backend source is not in the repository. -/
def gatewayCall (threshold cooldown : Nat) (st : CBState) (now : Nat)
    (provider : Option String) : GatewayResult :=
  match st with
  | .closed n =>
    match provider with
    | some resp => { state := .closed 0, outcome := .ok resp, contacted := true }
    | none =>
      if threshold ≤ n + 1 then
        { state := .opened now, outcome := .serviceError, contacted := true }
      else
        { state := .closed (n + 1), outcome := .serviceError, contacted := true }
  | .opened since =>
    if now < since + cooldown then
      { state := .opened since, outcome := .circuitOpen, contacted := false }
    else
      match provider with
      | some resp => { state := .closed 0, outcome := .ok resp, contacted := true }
      | none => { state := .opened now, outcome := .serviceError, contacted := true }

/-- Folds a sequence of provider failures (at the given instants) through
the breaker. -/
def runFailures (threshold cooldown : Nat) (st : CBState) (times : List Nat) : CBState :=
  times.foldl (fun s t => (gatewayCall threshold cooldown s t none).state) st

/-! ## BMI tool, modelled from the spec (the FastAPI tool handlers are not
in the repository snapshot). -/

/-- Modelled from the spec: rounding to the fixed two-decimal precision of
the BMI tool output. -/
def round2 (q : ℚ) : ℚ := ((⌊q * 100 + 1 / 2⌋ : ℤ) : ℚ) / 100

/-- The standard BMI bands. -/
inductive BMICategory where
  | underweight : BMICategory
  | normal : BMICategory
  | overweight : BMICategory
  | obese : BMICategory
deriving DecidableEq, Repr

/-- The display name of each standard BMI band. -/
def bmiCategoryName : BMICategory → String
  | .underweight => "Underweight"
  | .normal => "Normal"
  | .overweight => "Overweight"
  | .obese => "Obese"

/-- Standard BMI bands: underweight below 18.5, normal below 25, overweight
below 30, obese otherwise. -/
def classifyBMI (b : ℚ) : BMICategory :=
  if b < 37 / 2 then .underweight
  else if b < 25 then .normal
  else if b < 30 then .overweight
  else .obese

/-- The output of the BMI tool: the rounded value and the band name. -/
structure BMIResult where
  bmi : ℚ
  category : String
deriving DecidableEq, Repr

/-- Modelled from the spec: the BMI tool — weight in kilograms over height
in metres squared, rounded to two decimals, with the standard band; the
backend tool source is not in the repository. -/
def bmiTool (weight height : ℚ) : BMIResult :=
  let b := round2 (weight / height ^ 2)
  { bmi := b, category := bmiCategoryName (classifyBMI b) }

/-! ## Concrete sample data used to instantiate the theorems. -/

/-- A sample conversation turn. -/
def sampleTurn : ConversationTurn :=
  { turn_id := 9, user_hash := 10, role := "user", text := "hello", created_at := 8 }

/-- A sample short-term record owned by user 10. -/
def sampleShortA : ShortTermRecord :=
  { turn_id := 1, user_hash := 10, role := "user", text := "hi", created_at := 5, expires_at := 100 }

/-- A sample short-term record owned by user 20. -/
def sampleShortB : ShortTermRecord :=
  { turn_id := 2, user_hash := 20, role := "user", text := "yo", created_at := 6, expires_at := 100 }

/-- A sample long-term record owned by user 10. -/
def sampleLongA : LongTermRecord :=
  { record_id := 1, user_hash := 10, text := "alpha", embedding := [3], created_at := 5 }

/-- A second sample long-term record owned by user 10. -/
def sampleLongB : LongTermRecord :=
  { record_id := 2, user_hash := 10, text := "beta", embedding := [5], created_at := 7 }

/-- A sample long-term record owned by user 20. -/
def sampleLongC : LongTermRecord :=
  { record_id := 3, user_hash := 20, text := "gamma", embedding := [9], created_at := 2 }

/-- A sample store holding records of users 10 and 20. -/
def sampleStore : MemoryStore :=
  { shortTerm := [sampleShortA, sampleShortB], longTerm := [sampleLongA, sampleLongB, sampleLongC] }

/-- A sample memory configuration. -/
def sampleCfg : MemoryConfig := { k := 2, minSimilarity := 0, shortTtl := 50 }

/-- A model that never answers directly. -/
def sampleModel : Nat → ModelStep := fun _ => .toolCalls ["bmi"]

/-- A chat state whose input is whitespace only. -/
def sampleChatState : ChatState := { messages := [], inputMessage := "  ", isLoading := false }

/-- A chat state with a typed message ready to send. -/
def sampleChatState2 : ChatState := { messages := [], inputMessage := "hello", isLoading := false }

/-- A sample decoded backend response with a final answer. -/
def sampleResponseData : AgentResponseData :=
  { final_answer := some "ans", response := none, message := none }

/-! ## Theorems -/

/-- Membership in the short-term read path: exactly the store records that
belong to the user and are unexpired. -/
theorem mem_retrieveShortTerm {store : MemoryStore} {u now : Nat} {r : ShortTermRecord} :
    r ∈ retrieveShortTerm store u now ↔
      r ∈ store.shortTerm ∧ r.user_hash = u ∧ now < r.expires_at := by
  unfold retrieveShortTerm
  rw [(List.perm_insertionSort moreRecent _).mem_iff, List.mem_filter]
  simp [shortKeep]

/-- Membership in the long-term read path implies membership in the store,
ownership by the user, and similarity above the threshold. -/
theorem mem_retrieveLongTerm {cfg : MemoryConfig} {store : MemoryStore} {u : Nat}
    {m : List Int} {r : LongTermRecord} (h : r ∈ retrieveLongTerm cfg store u m) :
    r ∈ store.longTerm ∧ r.user_hash = u ∧ cfg.minSimilarity < similarity m r.embedding := by
  unfold retrieveLongTerm at h
  have h1 : r ∈ List.insertionSort (ltPriority m) (store.longTerm.filter (longKeep cfg u m)) :=
    List.mem_of_mem_take h
  have h2 : r ∈ store.longTerm.filter (longKeep cfg u m) :=
    (List.perm_insertionSort (ltPriority m) _).mem_iff.mp h1
  rw [List.mem_filter] at h2
  refine ⟨h2.1, ?_⟩
  have := h2.2
  simp [longKeep] at this
  exact this

instance (m : List Int) : IsTotal LongTermRecord (ltPriority m) := by
  constructor
  intro a b
  unfold ltPriority
  rcases lt_trichotomy (similarity m a.embedding) (similarity m b.embedding) with h | h | h
  · right; left; exact h
  · rcases Nat.le_total b.created_at a.created_at with h2 | h2
    · left; right; exact ⟨h, h2⟩
    · right; right; exact ⟨h.symm, h2⟩
  · left; left; exact h

instance (m : List Int) : IsTrans LongTermRecord (ltPriority m) := by
  constructor
  intro a b c hab hbc
  unfold ltPriority at *
  rcases hab with h1 | ⟨h1, h1r⟩ <;> rcases hbc with h2 | ⟨h2, h2r⟩
  · left; exact lt_trans h2 h1
  · left; omega
  · left; omega
  · right; exact ⟨h1.trans h2, le_trans h2r h1r⟩

/-- Claim C1: per-user memory isolation.  Every record in the context
assembled for a user carries that user hash; for two distinct user hashes,
no record written for one is ever returned to the other; and `persist_turn`
only adds records carrying the requesting user hash. -/
theorem C1_per_user_isolation (cfg : MemoryConfig) (store : MemoryStore) (u uo : Nat)
    (msg : String) (now : Nat) (turn : ConversationTurn) :
    (∀ r ∈ (assemble_context cfg store u msg now).shortTerm, r.user_hash = u) ∧
    (∀ r ∈ (assemble_context cfg store u msg now).longTerm, r.user_hash = u) ∧
    (u ≠ uo → ∀ r : ShortTermRecord, r.user_hash = uo →
      r ∉ (assemble_context cfg store u msg now).shortTerm) ∧
    (u ≠ uo → ∀ r : LongTermRecord, r.user_hash = uo →
      r ∉ (assemble_context cfg store u msg now).longTerm) ∧
    (∀ r ∈ (persist_turn cfg store u turn now).shortTerm,
      r ∈ store.shortTerm ∨ r.user_hash = u) ∧
    (∀ r ∈ (persist_turn cfg store u turn now).longTerm,
      r ∈ store.longTerm ∨ r.user_hash = u) := by
  have hshort : ∀ r ∈ (assemble_context cfg store u msg now).shortTerm, r.user_hash = u := by
    intro r hr
    exact (mem_retrieveShortTerm.mp hr).2.1
  have hlong : ∀ r ∈ (assemble_context cfg store u msg now).longTerm, r.user_hash = u := by
    intro r hr
    exact (mem_retrieveLongTerm hr).2.1
  refine ⟨hshort, hlong, ?_, ?_, ?_, ?_⟩
  · intro hne r hro hr
    exact hne (by rw [← hshort r hr, hro])
  · intro hne r hro hr
    exact hne (by rw [← hlong r hr, hro])
  · intro r hr
    rcases List.mem_append.mp hr with h | h
    · exact Or.inl h
    · right
      rw [List.mem_singleton] at h
      rw [h]
      rfl
  · intro r hr
    rcases List.mem_append.mp hr with h | h
    · exact Or.inl h
    · right
      rw [List.mem_singleton] at h
      rw [h]
      rfl

/-- Witness for C1 at a concrete store: user 10 only sees their own
records, and a record of user 20 is absent from user 10's context. -/
theorem C1_witness :
    sampleShortA.user_hash = 10 ∧
    sampleShortB ∉ (assemble_context sampleCfg sampleStore 10 "m" 0).shortTerm := by
  have h := C1_per_user_isolation sampleCfg sampleStore 10 20 "m" 0 sampleTurn
  refine ⟨?_, h.2.2.1 (by decide) sampleShortB (by decide)⟩
  exact h.1 sampleShortA (by decide)

/-- Claim C5: the long-term entries returned by `assemble_context` number at
most k, all exceed the minimum similarity threshold, and are ordered by
similarity descending with ties broken by recency descending. -/
theorem C5_long_term_retrieval_order (cfg : MemoryConfig) (store : MemoryStore) (u : Nat)
    (msg : String) (now : Nat) :
    (assemble_context cfg store u msg now).longTerm.length ≤ cfg.k ∧
    (∀ r ∈ (assemble_context cfg store u msg now).longTerm,
      cfg.minSimilarity < similarity (embed msg) r.embedding) ∧
    (assemble_context cfg store u msg now).longTerm.Pairwise (fun a b =>
      similarity (embed msg) b.embedding ≤ similarity (embed msg) a.embedding ∧
      (similarity (embed msg) a.embedding = similarity (embed msg) b.embedding →
        b.created_at ≤ a.created_at)) := by
  refine ⟨?_, ?_, ?_⟩
  · show (retrieveLongTerm cfg store u (embed msg)).length ≤ cfg.k
    unfold retrieveLongTerm
    simp [List.length_take]
  · intro r hr
    exact (mem_retrieveLongTerm hr).2.2
  · show (retrieveLongTerm cfg store u (embed msg)).Pairwise _
    unfold retrieveLongTerm
    have hs : (List.insertionSort (ltPriority (embed msg))
        (store.longTerm.filter (longKeep cfg u (embed msg)))).Pairwise (ltPriority (embed msg)) :=
      List.sorted_insertionSort (ltPriority (embed msg)) _
    have ht := hs.sublist (List.take_sublist cfg.k _)
    refine ht.imp ?_
    intro a b hab
    rcases hab with h | ⟨h1, h2⟩
    · exact ⟨le_of_lt h, fun heq => by omega⟩
    · exact ⟨le_of_eq h1.symm, fun _ => h2⟩

/-- Witness for C5 at a concrete store: two results fit the budget and the
returned record of user 10 is above the threshold. -/
theorem C5_witness :
    (assemble_context sampleCfg sampleStore 10 "m" 0).longTerm.length ≤ sampleCfg.k ∧
    sampleCfg.minSimilarity < similarity (embed "m") sampleLongB.embedding := by
  have h := C5_long_term_retrieval_order sampleCfg sampleStore 10 "m" 0
  exact ⟨h.1, h.2.1 sampleLongB (by decide)⟩

/-- Claim C6: a turn persisted via `persist_turn` is returned by
`assemble_context` for the same user at any time before its short-term
expiry, and excluded at any time from its expiry on. -/
theorem C6_persist_then_read (cfg : MemoryConfig) (store : MemoryStore) (u : Nat)
    (turn : ConversationTurn) (now : Nat) (msg : String) (t : Nat) :
    (t < now + cfg.shortTtl → shortRecordOf cfg u turn now ∈
      (assemble_context cfg (persist_turn cfg store u turn now) u msg t).shortTerm) ∧
    (now + cfg.shortTtl ≤ t → shortRecordOf cfg u turn now ∉
      (assemble_context cfg (persist_turn cfg store u turn now) u msg t).shortTerm) := by
  constructor
  · intro ht
    show shortRecordOf cfg u turn now ∈ retrieveShortTerm (persist_turn cfg store u turn now) u t
    rw [mem_retrieveShortTerm]
    refine ⟨?_, rfl, ht⟩
    exact List.mem_append.mpr (Or.inr (List.mem_singleton.mpr rfl))
  · intro ht hmem
    have h := mem_retrieveShortTerm.mp hmem
    have : t < now + cfg.shortTtl := h.2.2
    omega

/-- Witness for C6 at a concrete store: the persisted turn is visible at
time 10 (before expiry 50) and gone at time 60. -/
theorem C6_witness :
    shortRecordOf sampleCfg 10 sampleTurn 0 ∈
      (assemble_context sampleCfg (persist_turn sampleCfg sampleStore 10 sampleTurn 0)
        10 "m" 10).shortTerm ∧
    shortRecordOf sampleCfg 10 sampleTurn 0 ∉
      (assemble_context sampleCfg (persist_turn sampleCfg sampleStore 10 sampleTurn 0)
        10 "m" 60).shortTerm :=
  ⟨(C6_persist_then_read sampleCfg sampleStore 10 sampleTurn 0 "m" 10).1 (by decide),
   (C6_persist_then_read sampleCfg sampleStore 10 sampleTurn 0 "m" 60).2 (by decide)⟩

/-- If every round up to the remaining budget requests tools, the loop ends
in loop exhaustion with the apology text. -/
theorem agentLoopAux_all_toolCalls (model : Nat → ModelStep) :
    ∀ fuel round, (∀ i < fuel, ∃ cs, model (round + i) = .toolCalls cs) →
      agentLoopAux model round fuel = .loopExceeded apologyMessage := by
  intro fuel
  induction fuel with
  | zero => intro round _; rfl
  | succ n ih =>
    intro round hall
    obtain ⟨cs, hcs⟩ := hall 0 (Nat.succ_pos n)
    rw [Nat.add_zero] at hcs
    simp only [agentLoopAux]
    rw [hcs]
    exact ih (round + 1) (fun i hi => by
      obtain ⟨cs2, hcs2⟩ := hall (i + 1) (Nat.succ_lt_succ hi)
      exact ⟨cs2, by rw [show round + 1 + i = round + (i + 1) from by omega]; exact hcs2⟩)

/-- If the model answers directly at the first round within budget that is
not a tool-call request, the loop returns that answer. -/
theorem agentLoopAux_first_direct (model : Nat → ModelStep) :
    ∀ fuel round j t, j < fuel → model (round + j) = .direct t →
      (∀ i < j, ∃ cs, model (round + i) = .toolCalls cs) →
      agentLoopAux model round fuel = .answer t := by
  intro fuel
  induction fuel with
  | zero => intro round j t hj _ _; exact absurd hj (Nat.not_lt_zero j)
  | succ n ih =>
    intro round j t hj hdir hpre
    cases j with
    | zero =>
      rw [Nat.add_zero] at hdir
      simp only [agentLoopAux]
      rw [hdir]
    | succ j =>
      obtain ⟨cs, hcs⟩ := hpre 0 (Nat.succ_pos j)
      rw [Nat.add_zero] at hcs
      simp only [agentLoopAux]
      rw [hcs]
      refine ih (round + 1) j t (by omega) ?_ ?_
      · rw [show round + 1 + j = round + (j + 1) from by omega]; exact hdir
      · intro i hi
        obtain ⟨cs2, hcs2⟩ := hpre (i + 1) (by omega)
        exact ⟨cs2, by rw [show round + 1 + i = round + (i + 1) from by omega]; exact hcs2⟩

/-- The loop always yields an answer or loop exhaustion with the apology
text; there is no third behaviour. -/
theorem agentLoopAux_cases (model : Nat → ModelStep) : ∀ fuel round,
    (∃ t, agentLoopAux model round fuel = .answer t) ∨
      agentLoopAux model round fuel = .loopExceeded apologyMessage := by
  intro fuel
  induction fuel with
  | zero => intro round; right; rfl
  | succ n ih =>
    intro round
    simp only [agentLoopAux]
    cases h : model round with
    | direct t => exact Or.inl ⟨t, rfl⟩
    | toolCalls cs => exact ih (round + 1)

/-- Claim C3: the tool-call loop of the Agent Controller always terminates
in a final answer or, once the fixed round budget is exhausted, in
`AgentLoopExceeded` carrying the degraded apology text; a model that keeps
requesting tools beyond the limit fails the turn that way, and a direct
answer within the limit finalizes the turn with that answer. -/
theorem C3_agent_loop_terminates (model : Nat → ModelStep) (maxRounds : Nat) :
    ((∃ t, handle_turn_loop model maxRounds = .answer t) ∨
      handle_turn_loop model maxRounds = .loopExceeded apologyMessage) ∧
    ((∀ r < maxRounds, ∃ cs, model r = .toolCalls cs) →
      handle_turn_loop model maxRounds = .loopExceeded apologyMessage) ∧
    (∀ r t, r < maxRounds → model r = .direct t →
      (∀ i < r, ∃ cs, model i = .toolCalls cs) →
      handle_turn_loop model maxRounds = .answer t) := by
  refine ⟨agentLoopAux_cases model maxRounds 0, ?_, ?_⟩
  · intro hall
    exact agentLoopAux_all_toolCalls model maxRounds 0 (fun i hi => by
      obtain ⟨cs, hcs⟩ := hall i hi
      exact ⟨cs, by rw [Nat.zero_add]; exact hcs⟩)
  · intro r t hr hdir hpre
    refine agentLoopAux_first_direct model maxRounds 0 r t hr ?_ ?_
    · rw [Nat.zero_add]; exact hdir
    · intro i hi
      obtain ⟨cs, hcs⟩ := hpre i hi
      exact ⟨cs, by rw [Nat.zero_add]; exact hcs⟩

/-- Witness for C3: a model that always requests tools exhausts a budget of
three rounds and yields the apology. -/
theorem C3_witness : handle_turn_loop sampleModel 3 = .loopExceeded apologyMessage :=
  (C3_agent_loop_terminates sampleModel 3).2.1 (fun _ _ => ⟨["bmi"], rfl⟩)

/-- Folding fewer consecutive failures than the threshold leaves the
breaker closed, counting them. -/
theorem runFailures_closed_of_lt (thr cd : Nat) :
    ∀ ts j, j + ts.length < thr →
      runFailures thr cd (.closed j) ts = .closed (j + ts.length) := by
  intro ts
  induction ts with
  | nil => intro j h; simp [runFailures]
  | cons t ts ih =>
    intro j h
    simp only [List.length_cons] at h ⊢
    have hlt : ¬ thr ≤ j + 1 := by omega
    simp only [runFailures, List.foldl_cons]
    rw [show (gatewayCall thr cd (.closed j) t none).state = .closed (j + 1) from by
      simp [gatewayCall, hlt]]
    have := ih (j + 1) (by omega)
    simp only [runFailures] at this
    rw [this]
    congr 1
    omega

/-- Folding exactly threshold-many consecutive failures opens the breaker
at the instant of the last failure. -/
theorem runFailures_opens (thr cd : Nat) :
    ∀ ts tlast j, j + ts.length + 1 = thr →
      runFailures thr cd (.closed j) (ts ++ [tlast]) = .opened tlast := by
  intro ts
  induction ts with
  | nil =>
    intro tlast j h
    simp only [List.nil_append, runFailures, List.foldl_cons, List.foldl_nil]
    have hle : thr ≤ j + 1 := by simp at h; omega
    simp [gatewayCall, hle]
  | cons t ts ih =>
    intro tlast j h
    simp only [List.length_cons] at h
    have hlt : ¬ thr ≤ j + 1 := by omega
    simp only [List.cons_append, runFailures, List.foldl_cons]
    rw [show (gatewayCall thr cd (.closed j) t none).state = .closed (j + 1) from by
      simp [gatewayCall, hlt]]
    have := ih tlast (j + 1) (by omega)
    simp only [runFailures] at this
    exact this

/-- Claim C4: after exactly threshold-many consecutive provider failures the
circuit opens; the very next call within the cool-down fails immediately
with `CircuitOpenError` without contacting the provider, whether or not the
provider would answer; and a half-open probe after the cool-down that
succeeds closes the circuit again. -/
theorem C4_circuit_breaker (threshold cooldown : Nat) (ts : List Nat) (tlast : Nat)
    (hlen : ts.length + 1 = threshold) (now : Nat) (hnow : now < tlast + cooldown)
    (resp : String) :
    runFailures threshold cooldown (.closed 0) (ts ++ [tlast]) = .opened tlast ∧
    gatewayCall threshold cooldown (.opened tlast) now none =
      { state := .opened tlast, outcome := .circuitOpen, contacted := false } ∧
    gatewayCall threshold cooldown (.opened tlast) now (some resp) =
      { state := .opened tlast, outcome := .circuitOpen, contacted := false } ∧
    (∀ later, tlast + cooldown ≤ later →
      gatewayCall threshold cooldown (.opened tlast) later (some resp) =
        { state := .closed 0, outcome := .ok resp, contacted := true }) := by
  refine ⟨runFailures_opens threshold cooldown ts tlast 0 (by omega), ?_, ?_, ?_⟩
  · simp [gatewayCall, hnow]
  · simp [gatewayCall, hnow]
  · intro later hl
    have hnl : ¬ later < tlast + cooldown := by omega
    simp [gatewayCall, hnl]

/-- Witness for C4 with threshold 3: failures at instants 1, 2, 3 open the
circuit; a call at instant 5 short-circuits without contact; a successful
probe at instant 13 closes it. -/
theorem C4_witness :
    runFailures 3 10 (.closed 0) [1, 2, 3] = .opened 3 ∧
    gatewayCall 3 10 (.opened 3) 5 none =
      { state := .opened 3, outcome := .circuitOpen, contacted := false } ∧
    gatewayCall 3 10 (.opened 3) 13 (some "ok") =
      { state := .closed 0, outcome := .ok "ok", contacted := true } := by
  have h := C4_circuit_breaker 3 10 [1, 2] 3 (by decide) 5 (by decide) "ok"
  exact ⟨h.1, h.2.1, h.2.2.2 13 (by decide)⟩

/-- Claim C2: for positive weight (kg) and height (m) the BMI tool returns
the weight over squared height rounded to two decimals and the standard
band of that value; on weight 70 and height 1.75 it returns 22.86 with
category Normal. -/
theorem C2_bmi_tool (w h : ℚ) (hw : 0 < w) (hh : 0 < h) :
    (bmiTool w h).bmi = round2 (w / h ^ 2) ∧
    (bmiTool w h).category = bmiCategoryName (classifyBMI (round2 (w / h ^ 2))) ∧
    (bmiTool 70 (175 / 100)).bmi = 2286 / 100 ∧
    (bmiTool 70 (175 / 100)).category = "Normal" := by
  have hb : round2 (70 / (175 / 100 : ℚ) ^ 2) = 2286 / 100 := by
    unfold round2
    norm_num
  refine ⟨rfl, rfl, hb, ?_⟩
  have hcat : (bmiTool 70 (175 / 100 : ℚ)).category =
      bmiCategoryName (classifyBMI (round2 (70 / (175 / 100 : ℚ) ^ 2))) := rfl
  rw [hcat, hb]
  norm_num [classifyBMI, bmiCategoryName]

/-- Witness for C2 at weight 70 kg and height 1.75 m. -/
theorem C2_witness :
    (bmiTool 70 (175 / 100)).bmi = 2286 / 100 ∧
    (bmiTool 70 (175 / 100)).category = "Normal" := by
  have h := C2_bmi_tool 70 (175 / 100) (by norm_num) (by norm_num)
  exact ⟨h.2.2.1, h.2.2.2⟩

/-- Counterexample to claim C7 as stated: the JSON body sent by
`sendMessageToAPI` does not carry exactly the fields message and
identity_token — it carries message and timestamp, the token travelling in
the Authorization header instead. -/
theorem C7_counterexample : chatRequestBodyFields ≠ ["message", "identity_token"] := by
  decide

/-- Claim C7 (amended): every inbound chat request carries message and
timestamp in the JSON body, with the identity token travelling as a bearer
Authorization header rather than a body field; the identity_token is
resolved to a user_hash once at the boundary by the one-way derivation, and
the response to the caller is a final_answer or an error envelope — one
independent of the token, so the raw identifier never flows back. -/
theorem C7_inbound_interface (token msg ts : String) (model : Nat → ModelStep)
    (maxRounds : Nat) :
    (buildChatRequest token msg ts).body = { message := msg, timestamp := ts } ∧
    (buildChatRequest token msg ts).authorization = "Bearer " ++ token ∧
    chatRequestBodyFields = ["message", "timestamp"] ∧
    "identity_token" ∉ chatRequestBodyFields ∧
    bearerToken (buildChatRequest token msg ts).authorization = token ∧
    (handleInbound model maxRounds (buildChatRequest token msg ts)).1 =
      resolveIdentityToken token ∧
    ((∃ t, (handleInbound model maxRounds (buildChatRequest token msg ts)).2 = .answer t) ∨
      (∃ e, (handleInbound model maxRounds (buildChatRequest token msg ts)).2 =
        .errorEnvelope e)) ∧
    (∀ req2 : ChatRequest,
      (handleInbound model maxRounds (buildChatRequest token msg ts)).2 =
        (handleInbound model maxRounds req2).2) := by
  have hbear : bearerToken (buildChatRequest token msg ts).authorization = token := by
    unfold bearerToken buildChatRequest
    rw [show ("Bearer " ++ token).data = "Bearer ".data ++ token.data from rfl]
    rw [show (7 : Nat) = "Bearer ".data.length from rfl]
    rw [List.drop_left]
  refine ⟨rfl, rfl, rfl, by decide, hbear, ?_, ?_, ?_⟩
  · cases h : handle_turn_loop model maxRounds <;> simp [handleInbound, h, hbear]
  · cases h : handle_turn_loop model maxRounds with
    | answer t => exact Or.inl ⟨t, by simp [handleInbound, h]⟩
    | loopExceeded e => exact Or.inr ⟨e, by simp [handleInbound, h]⟩
  · intro req2
    cases h : handle_turn_loop model maxRounds <;> simp [handleInbound, h]

/-- Witness for the amended C7 at a concrete token and model. -/
theorem C7_witness :
    (buildChatRequest "tok" "hi" "2024").authorization = "Bearer " ++ "tok" ∧
    bearerToken (buildChatRequest "tok" "hi" "2024").authorization = "tok" ∧
    (handleInbound sampleModel 3 (buildChatRequest "tok" "hi" "2024")).1 =
      resolveIdentityToken "tok" := by
  have h := C7_inbound_interface "tok" "hi" "2024" sampleModel 3
  exact ⟨h.2.1, h.2.2.2.2.1, h.2.2.2.2.2.1⟩

/-- Claim C8: every failure of the backend call yields one of the two fixed
generic failure texts, the text for an HTTP failure does not depend on the
status code, and the catch path of `handleSendMessage` appends the fixed
catch text — never a raw error. -/
theorem C8_no_raw_errors (o : FetchOutcome) (h : isFailedCall o = true) :
    (sendMessageToAPI o = connectFailureMessage ∨
      sendMessageToAPI o = processFailureMessage) ∧
    (∀ s1 s2 : Nat, sendMessageToAPI (.httpError s1) = sendMessageToAPI (.httpError s2)) ∧
    (∀ o2 nowId nowTime, (botMessageOf true o2 nowId nowTime).text = catchFailureMessage) := by
  refine ⟨?_, fun s1 s2 => rfl, fun o2 nowId nowTime => rfl⟩
  cases o with
  | noToken => exact Or.inl rfl
  | networkError => exact Or.inl rfl
  | httpError s => exact Or.inl rfl
  | success d =>
    right
    simp only [isFailedCall, Bool.not_eq_true', Bool.or_eq_false_iff] at h
    obtain ⟨⟨h1, h2⟩, h3⟩ := h
    simp [sendMessageToAPI, extractAnswer, h1, h2, h3]

/-- Witness for C8 at a concrete HTTP failure. -/
theorem C8_witness :
    sendMessageToAPI (.httpError 500) = connectFailureMessage ∨
      sendMessageToAPI (.httpError 500) = processFailureMessage :=
  (C8_no_raw_errors (.httpError 500) (by decide)).1

/-- Claim C9: when the trimmed input is empty or a request is in flight,
`handleSendMessage` issues no API request and leaves the message list, the
input field and the loading flag unchanged. -/
theorem C9_send_guard (s : ChatState) (isSignedIn apiThrew : Bool) (o : FetchOutcome)
    (nowId : Nat) (nowTime : String)
    (h : jsTrim s.inputMessage = "" ∨ s.isLoading = true) :
    handleSendMessage s isSignedIn apiThrew o nowId nowTime = (s, false) := by
  rcases h with h | h <;> simp [handleSendMessage, h]

/-- Witness for C9 on a whitespace-only input. -/
theorem C9_witness :
    handleSendMessage sampleChatState true false .networkError 5 "t" =
      (sampleChatState, false) :=
  C9_send_guard sampleChatState true false .networkError 5 "t" (Or.inl (by decide))

/-- Claim C10: a completed send past the guards appends exactly the user
message followed by one bot message, leaves every earlier entry in place,
and grows the list by exactly two. -/
theorem C10_append_two (s : ChatState) (apiThrew : Bool) (o : FetchOutcome)
    (nowId : Nat) (nowTime : String)
    (h1 : jsTrim s.inputMessage ≠ "") (h2 : s.isLoading = false) :
    (handleSendMessage s true apiThrew o nowId nowTime).1.messages =
      s.messages ++ [userMessageOf s nowId nowTime, botMessageOf apiThrew o nowId nowTime] ∧
    (handleSendMessage s true apiThrew o nowId nowTime).1.messages.length =
      s.messages.length + 2 ∧
    (handleSendMessage s true apiThrew o nowId nowTime).1.messages.take s.messages.length =
      s.messages ∧
    (userMessageOf s nowId nowTime).sender = "user" ∧
    (userMessageOf s nowId nowTime).text = s.inputMessage ∧
    (botMessageOf apiThrew o nowId nowTime).sender = "bot" ∧
    (botMessageOf apiThrew o nowId nowTime).text =
      (if apiThrew then catchFailureMessage else sendMessageToAPI o) ∧
    (handleSendMessage s true apiThrew o nowId nowTime).2 = true := by
  have hstep : handleSendMessage s true apiThrew o nowId nowTime =
      ({ messages := s.messages ++
          [userMessageOf s nowId nowTime, botMessageOf apiThrew o nowId nowTime]
        , inputMessage := "", isLoading := false }, true) := by
    simp [handleSendMessage, h1, h2]
  rw [hstep]
  refine ⟨rfl, ?_, ?_, rfl, rfl, rfl, rfl, rfl⟩
  · simp
  · exact List.take_left s.messages _

/-- Witness for C10 on a concrete state: the send appends the user and bot
messages to the empty history. -/
theorem C10_witness :
    (handleSendMessage sampleChatState2 true false .networkError 5 "t").1.messages =
      sampleChatState2.messages ++
        [userMessageOf sampleChatState2 5 "t", botMessageOf false .networkError 5 "t"] ∧
    (handleSendMessage sampleChatState2 true false .networkError 5 "t").2 = true := by
  have h := C10_append_two sampleChatState2 false .networkError 5 "t" (by decide) rfl
  exact ⟨h.1, h.2.2.2.2.2.2.2⟩

end FitPlanner
